import Mathlib

/-! Verification development for the scam-report-builder repository.

The definitions below are a shallow embedding of `src/core/odt_generator.py`,
`src/core/template_manager.py` and the snapshot save/load logic of
`src/ui/main_window.py`.  Python byte strings are modelled as `List Nat`
(each element < 256), Python `float` arithmetic on image dimensions is
modelled by exact rationals (all values occurring in the claims are exactly
representable, and the two-decimal formatting uses round-half-even exactly
as CPython does), dictionaries are modelled as insertion-ordered
association lists, and the clock (`datetime.now()`) is passed in as an
opaque string parameter `now`. -/

namespace ScamReport

/-- Python `bytes` values: a list of byte values. -/
abbrev Bytes := List Nat

/-- Record for one entry of `other_payments`: `{type, details}` as produced by
the other-payment widget. -/
structure OtherPayment where
  type : String
  details : String
deriving Repr, DecidableEq

/-- The report-content dictionary passed to `ODTGenerator.create_odt`.
Keys that the generator reads are modelled as fields; an absent or empty
Python value is the empty string / empty list (Python truthiness). -/
structure ReportContent where
  type : String
  summary : String
  «alias» : List String
  emails : List String
  websites : List String
  ips : List String
  locations : List String
  started : String
  bank_info : List String
  other_payments : List OtherPayment
  amount : String
  remarks : List String
  scammer_names : List String
  scammer_real_name : String
deriving Repr, DecidableEq

/-- One processed image, mirroring the dict built in `_process_images`. -/
structure ImageEntry where
  filename : String
  category : String
  name : String
  width : String
  height : String
  index : Nat
deriving Repr, DecidableEq

/-- Round a rational to an integer using round-half-even, as CPython float
formatting does. -/
def roundHalfEvenQ (q : ℚ) : ℤ :=
  let fl := ⌊q⌋
  if q - fl < 1/2 then fl
  else if 1/2 < q - fl then fl + 1
  else if fl % 2 = 0 then fl else fl + 1

/-- Format a nonnegative rational with exactly two decimal places, modelling
the Python format specifier `:.2f`. -/
def fmt2 (q : ℚ) : String :=
  let m := (roundHalfEvenQ (q * 100)).toNat
  toString (m / 100) ++ "." ++ (if m % 100 < 10 then "0" else "") ++ toString (m % 100)

/-- Display-dimension computation from `_process_images` (lines 83-100):
decode the image, convert the pixel size to inches at 96 DPI, cap the width
at 6 inches scaling the height by the same factor, format to two decimals;
on decode failure fall back to the `4in` x `3in` placeholder. -/
def compute_dims (sz : Option (Nat × Nat)) : String × String :=
  match sz with
  | some wh =>
      let width_in : ℚ := (wh.1 : ℚ) / 96
      let height_in : ℚ := (wh.2 : ℚ) / 96
      if 6 < width_in then
        (fmt2 6 ++ "in", fmt2 (height_in * (6 / width_in)) ++ "in")
      else
        (fmt2 width_in ++ "in", fmt2 height_in ++ "in")
  | none => ("4in", "3in")

/-- Python truthiness of the optional image payload: `if img_data:`. -/
def data_truthy : Option Bytes → Bool
  | some bs => !bs.isEmpty
  | none => false

/-- Inner loop of `_process_images` over one category list: every truthy
image gets the next sequential index, is staged as `image_<index>.jpg`, and
its display dimensions are computed.  Returns the produced entries, the
staged `Pictures/` files, and the final counter value. -/
def process_cat (decode : Bytes → Option (Nat × Nat)) (cat : String) :
    Nat → List (String × Option Bytes) → List ImageEntry × List (String × Bytes) × Nat
  | counter, [] => ([], [], counter)
  | counter, (nm, dat) :: rest =>
      if data_truthy dat then
        let bs := dat.getD []
        let fn := "image_" ++ toString counter ++ ".jpg"
        let wh := compute_dims (decode bs)
        let e : ImageEntry := ⟨fn, cat, nm, wh.1, wh.2, counter⟩
        let r := process_cat decode cat (counter + 1) rest
        (e :: r.1, (fn, bs) :: r.2.1, r.2.2)
      else process_cat decode cat counter rest

/-- Outer loop of `_process_images` over the category dictionary (insertion
ordered), threading the shared image counter. -/
def process_images_go (decode : Bytes → Option (Nat × Nat)) :
    Nat → List (String × List (String × Option Bytes)) → List ImageEntry × List (String × Bytes)
  | _, [] => ([], [])
  | counter, (cat, l) :: rest =>
      let r := process_cat decode cat counter l
      let r2 := process_images_go decode r.2.2 rest
      (r.1 ++ r2.1, r.2.1 ++ r2.2)

/-- `_process_images`: the counter starts at 1. -/
def process_images (decode : Bytes → Option (Nat × Nat))
    (images : List (String × List (String × Option Bytes))) :
    List ImageEntry × List (String × Bytes) :=
  process_images_go decode 1 images

/-- The `mimetype` file contents written by `_create_mimetype`. -/
def mimetype_content : String := "application/vnd.oasis.opendocument.text"

/-- The fixed manifest lines for the package root and the three XML parts
(lines 129-134 of `odt_generator.py`). -/
def manifest_header : String :=
  "<?xml version=\"1.0\" encoding=\"UTF-8\"?>\n<manifest:manifest xmlns:manifest=\"urn:oasis:names:tc:opendocument:xmlns:manifest:1.0\">\n  <manifest:file-entry manifest:full-path=\"/\" manifest:media-type=\"application/vnd.oasis.opendocument.text\"/>\n  <manifest:file-entry manifest:full-path=\"content.xml\" manifest:media-type=\"text/xml\"/>\n  <manifest:file-entry manifest:full-path=\"styles.xml\" manifest:media-type=\"text/xml\"/>\n  <manifest:file-entry manifest:full-path=\"meta.xml\" manifest:media-type=\"text/xml\"/>"

/-- One manifest line per staged image, media type fixed at `image/jpeg`. -/
def manifest_image_line (e : ImageEntry) : String :=
  "\n  <manifest:file-entry manifest:full-path=\"Pictures/" ++ e.filename ++
  "\" manifest:media-type=\"image/jpeg\"/>"

/-- `_create_manifest`: header, one line per image entry, closing tag. -/
def create_manifest (entries : List ImageEntry) : String :=
  manifest_header ++ String.join (entries.map manifest_image_line) ++ "\n</manifest:manifest>"

/-- Fixed document prologue of `content.xml` up to the opening of
`office:automatic-styles` (lines 152-169). -/
def content_header : String :=
  "<?xml version=\"1.0\" encoding=\"UTF-8\"?>\n<office:document-content xmlns:office=\"urn:oasis:names:tc:opendocument:xmlns:office:1.0\"\n  xmlns:style=\"urn:oasis:names:tc:opendocument:xmlns:style:1.0\"\n  xmlns:text=\"urn:oasis:names:tc:opendocument:xmlns:text:1.0\"\n  xmlns:draw=\"urn:oasis:names:tc:opendocument:xmlns:drawing:1.0\"\n  xmlns:fo=\"urn:oasis:names:tc:opendocument:xmlns:xsl-fo-compatible:1.0\"\n  xmlns:xlink=\"http://www.w3.org/1999/xlink\"\n  xmlns:dc=\"http://purl.org/dc/elements/1.1/\"\n  xmlns:meta=\"urn:oasis:names:tc:opendocument:xmlns:meta:1.0\"\n  xmlns:svg=\"urn:oasis:names:tc:opendocument:xmlns:svg-compatible:1.0\"\n  office:version=\"1.3\">\n  \n  <office:scripts/>\n  <office:font-face-decls>\n    <style:font-face style:name=\"Liberation Serif\" svg:font-family=\"&apos;Liberation Serif&apos;\" style:font-family-generic=\"roman\" style:font-pitch=\"variable\"/>\n  </office:font-face-decls>\n  \n  <office:automatic-styles>"

/-- Per-image automatic graphic style `fr<index>` (lines 172-176). -/
def image_style_chunk (e : ImageEntry) : String :=
  "\n    <style:style style:name=\"fr" ++ toString e.index ++
  "\" style:family=\"graphic\">\n      <style:graphic-properties style:horizontal-pos=\"center\" style:horizontal-rel=\"paragraph\"/>\n    </style:style>"

/-- Fixed text styles and the opening of the document body, through the
`text:sequence-decls` block (lines 179-214). -/
def text_styles_block : String :=
  "\n    <style:style style:name=\"T1\" style:family=\"text\">\n      <style:text-properties fo:font-size=\"12pt\" fo:font-family=\"Liberation Serif\" style:font-name=\"Liberation Serif\"/>\n    </style:style>\n    <style:style style:name=\"T1BoldUnderline\" style:family=\"text\">\n      <style:text-properties fo:font-size=\"12pt\" fo:font-family=\"Liberation Serif\" style:font-name=\"Liberation Serif\" fo:font-weight=\"bold\" style:text-underline-style=\"solid\" style:text-underline-width=\"auto\" style:text-underline-color=\"font-color\"/>\n    </style:style>\n    <style:style style:name=\"T1Underline\" style:family=\"text\">\n      <style:text-properties fo:font-size=\"12pt\" fo:font-family=\"Liberation Serif\" style:font-name=\"Liberation Serif\" style:text-underline-style=\"solid\" style:text-underline-width=\"auto\" style:text-underline-color=\"font-color\"/>\n    </style:style>\n    <style:style style:name=\"T1Bold\" style:family=\"text\">\n      <style:text-properties fo:font-size=\"12pt\" fo:font-family=\"Liberation Serif\" style:font-name=\"Liberation Serif\" fo:font-weight=\"bold\"/>\n    </style:style>\n    <style:style style:name=\"P1\" style:family=\"paragraph\">\n      <style:paragraph-properties fo:margin-top=\"0in\" fo:margin-bottom=\"0.1in\"/>\n      <style:text-properties fo:font-size=\"12pt\" fo:font-family=\"Liberation Serif\" style:font-name=\"Liberation Serif\"/>\n    </style:style>\n    <style:style style:name=\"P1BoldUnderline\" style:family=\"paragraph\">\n      <style:paragraph-properties fo:margin-top=\"0in\" fo:margin-bottom=\"0.1in\"/>\n      <style:text-properties fo:font-size=\"12pt\" fo:font-family=\"Liberation Serif\" style:font-name=\"Liberation Serif\" fo:font-weight=\"bold\" style:text-underline-style=\"solid\" style:text-underline-width=\"auto\" style:text-underline-color=\"font-color\"/>\n    </style:style>\n    <style:style style:name=\"ListBullet\" style:family=\"paragraph\">\n      <style:paragraph-properties fo:margin-top=\"0in\" fo:margin-bottom=\"0in\" fo:margin-left=\"0.2in\" fo:text-indent=\"0in\" style:auto-text-indent=\"false\"/>\n      <style:text-properties fo:font-size=\"12pt\" fo:font-family=\"Liberation Serif\" style:font-name=\"Liberation Serif\"/>\n    </style:style>\n    <style:style style:name=\"PageBreak\" style:family=\"paragraph\">\n      <style:paragraph-properties fo:break-before=\"page\"/>\n      <style:text-properties fo:font-size=\"12pt\" fo:font-family=\"Liberation Serif\" style:font-name=\"Liberation Serif\"/>\n    </style:style>\n  </office:automatic-styles>\n  \n  <office:body>\n    <office:text>\n      <text:sequence-decls>\n        <text:sequence-decl text:display-outline-level=\"0\" text:name=\"Illustration\"/>\n      </text:sequence-decls>"

/-- Closing tags of `content.xml` (lines 234-237). -/
def content_footer : String :=
  "\n    </office:text>\n  </office:body>\n</office:document-content>"

/-- Python `str.strip()`: remove leading and trailing whitespace. -/
def py_strip (s : String) : String :=
  String.mk (((s.toList.dropWhile Char.isWhitespace).reverse.dropWhile Char.isWhitespace).reverse)

/-- Helper for `py_split_nl`: accumulate the current line (reversed). -/
def split_nl_go : List Char → List Char → List String
  | acc, [] => [String.mk acc.reverse]
  | acc, ch :: rest =>
      if ch = '\n' then String.mk acc.reverse :: split_nl_go [] rest
      else split_nl_go (ch :: acc) rest

/-- Python `s.split("\n")`: split on every newline, keeping empty pieces. -/
def py_split_nl (s : String) : List String := split_nl_go [] s.toList

/-- Python `"\n" in s`. -/
def has_newline (s : String) : Bool := s.toList.contains '\n'

/-- Empty spacer paragraph used throughout `_add_report_sections`. -/
def pEmptyLine : String := "\n      <text:p text:style-name=\"P1\"/>"

/-- Page-break paragraph. -/
def page_break_para : String := "\n      <text:p text:style-name=\"PageBreak\"/>"

/-- Normalization of the historical label: strip the parenthetical from
`Advance-Fee Scam (419)` (lines 218-220 and 258-260). -/
def scam_type_display (t : String) : String :=
  if t = "Advance-Fee Scam (419)" then "Advance-Fee Scam" else t

/-- `_get_main_alias`: first alias if any, else `Unknown`. -/
def get_main_alias (c : ReportContent) : String :=
  match c.«alias» with
  | a :: _ => a
  | [] => "Unknown"

/-- Title paragraph of the document (line 223). -/
def title_para (c : ReportContent) : String :=
  "\n      <text:p text:style-name=\"P1BoldUnderline\">Report for " ++
  scam_type_display c.type ++ " scammer \"" ++ get_main_alias c ++ "\"</text:p>"

/-- Generation-timestamp paragraph (line 224). -/
def generated_para (now : String) : String :=
  "\n      <text:p text:style-name=\"P1\">Generated: " ++ now ++ "</text:p>"

/-- `Type of scam` paragraph, emitted only when the (normalized) type is
truthy (lines 256-264). -/
def type_chunk (c : ReportContent) : String :=
  let st := scam_type_display c.type
  if st ≠ "" then
    "\n      <text:p text:style-name=\"P1\"><text:span text:style-name=\"T1Underline\">Type of scam:</text:span> " ++ st ++ "</text:p>"
  else ""

/-- `Short summary` paragraph (lines 267-269); the raw value is
interpolated into the markup unchanged. -/
def summary_chunk (c : ReportContent) : String :=
  if c.summary ≠ "" then
    "\n      <text:p text:style-name=\"P1\"><text:span text:style-name=\"T1Underline\">Short summary:</text:span> " ++ c.summary ++ "</text:p>"
  else ""

/-- Alias list paragraph, comma-joined (lines 277-284). -/
def alias_chunk (c : ReportContent) : String :=
  if c.«alias» ≠ [] then
    "\n      <text:p text:style-name=\"P1\"><text:span text:style-name=\"T1Underline\">Scammers aliase(s):</text:span> " ++ String.intercalate ", " c.«alias» ++ "</text:p>"
  else ""

/-- Email list paragraph (lines 287-294). -/
def emails_chunk (c : ReportContent) : String :=
  if c.emails ≠ [] then
    "\n      <text:p text:style-name=\"P1\"><text:span text:style-name=\"T1Underline\">Email(s):</text:span> " ++ String.intercalate ", " c.emails ++ "</text:p>"
  else ""

/-- Website list paragraph (lines 297-304). -/
def websites_chunk (c : ReportContent) : String :=
  if c.websites ≠ [] then
    "\n      <text:p text:style-name=\"P1\"><text:span text:style-name=\"T1Underline\">Website(s):</text:span> " ++ String.intercalate ", " c.websites ++ "</text:p>"
  else ""

/-- IP list paragraph (lines 307-314). -/
def ips_chunk (c : ReportContent) : String :=
  if c.ips ≠ [] then
    "\n      <text:p text:style-name=\"P1\"><text:span text:style-name=\"T1Underline\">IPs:</text:span> " ++ String.intercalate ", " c.ips ++ "</text:p>"
  else ""

/-- Geolocation paragraph, joined with slashes (lines 317-324). -/
def locations_chunk (c : ReportContent) : String :=
  if c.locations ≠ [] then
    "\n      <text:p text:style-name=\"P1\"><text:span text:style-name=\"T1Underline\">Geo location(s):</text:span> " ++ String.intercalate " / " c.locations ++ "</text:p>"
  else ""

/-- `Started` paragraph (lines 326-328). -/
def started_chunk (c : ReportContent) : String :=
  if c.started ≠ "" then
    "\n      <text:p text:style-name=\"P1\"><text:span text:style-name=\"T1Underline\">Started:</text:span> " ++ c.started ++ "</text:p>"
  else ""

/-- The Main-Info portion of `_add_report_sections`: type and summary, a
spacer, the contact paragraphs, and a spacer (lines 256-331). -/
def main_info_chunk (c : ReportContent) : String :=
  type_chunk c ++ summary_chunk c ++ pEmptyLine ++ alias_chunk c ++ emails_chunk c ++
  websites_chunk c ++ ips_chunk c ++ locations_chunk c ++ started_chunk c ++ pEmptyLine

/-- Non-blank lines of one bank-account free-text block, stripped, one
paragraph each (lines 356-360). -/
def bank_lines (account : String) : String :=
  String.join ((py_split_nl account).filterMap (fun line =>
    if py_strip line ≠ "" then
      some ("\n      <text:p text:style-name=\"P1\">" ++ py_strip line ++ "</text:p>")
    else none))

/-- One labeled bank-account sub-block `Bank Account <i>:` followed by its
lines and a spacer (lines 351-366). -/
def bank_account_block (i : Nat) (account : String) : String :=
  "\n      <text:p text:style-name=\"P1\"><text:span text:style-name=\"T1Underline\">Bank Account " ++
  toString i ++ ":</text:span></text:p>" ++ bank_lines account ++ pEmptyLine

/-- Enumerated bank-account sub-blocks starting at index 1. -/
def bank_blocks : Nat → List String → String
  | _, [] => ""
  | i, a :: rest => bank_account_block i a ++ bank_blocks (i + 1) rest

/-- The `BANK ACCOUNTS` section (lines 333-369); present only when
`bank_info` is truthy.  The source also accepts a single string here (it is
treated as one block); the list form produced by the GUI is modelled. -/
def bank_chunk (c : ReportContent) : String :=
  if c.bank_info ≠ [] then
    "\n      <text:p text:style-name=\"P1BoldUnderline\">BANK ACCOUNTS</text:p>" ++
    bank_blocks 1 c.bank_info ++ pEmptyLine
  else ""

/-- Details of one other-payment record: line-broken on embedded newlines
(blank lines dropped, lines stripped), otherwise one verbatim paragraph
(lines 385-393). -/
def payment_details_lines (details : String) : String :=
  if has_newline details then
    String.join ((py_split_nl details).filterMap (fun line =>
      if py_strip line ≠ "" then
        some ("\n      <text:p text:style-name=\"P1\">" ++ py_strip line ++ "</text:p>")
      else none))
  else "\n      <text:p text:style-name=\"P1\">" ++ details ++ "</text:p>"

/-- One other-payment sub-block: bulleted type label then the details
(lines 377-393). -/
def payment_block (p : OtherPayment) : String :=
  "\n      <text:p text:style-name=\"ListBullet\">- <text:span text:style-name=\"T1Underline\">" ++
  p.type ++ ":</text:span></text:p>" ++ payment_details_lines p.details

/-- The `Other payment methods` section (lines 371-400). -/
def other_payments_chunk (c : ReportContent) : String :=
  if c.other_payments ≠ [] then
    "\n      <text:p text:style-name=\"P1\"><text:span text:style-name=\"T1Underline\">Other payment methods:</text:span></text:p>" ++
    String.join (c.other_payments.map payment_block) ++ pEmptyLine
  else ""

/-- The `Fee/Amount` paragraph plus two spacers (lines 402-407). -/
def fee_chunk (c : ReportContent) : String :=
  if c.amount ≠ "" then
    "\n      <text:p text:style-name=\"P1\"><text:span text:style-name=\"T1Underline\">Fee/Amount:</text:span> " ++
    c.amount ++ "</text:p>" ++ pEmptyLine ++ pEmptyLine
  else ""

/-- The `Remarks` bullet list (lines 409-421). -/
def remarks_chunk (c : ReportContent) : String :=
  if c.remarks ≠ [] then
    "\n      <text:p text:style-name=\"P1\"><text:span text:style-name=\"T1Underline\">Remarks:</text:span></text:p>" ++
    String.join (c.remarks.map (fun r =>
      "\n      <text:p text:style-name=\"ListBullet\">- " ++ r ++ "</text:p>")) ++ pEmptyLine
  else ""

/-- `_add_report_sections` appends, in source order: Main-Info paragraphs,
the bank-account section, the other-payments section, the fee/amount
paragraph, and the remarks list (lines 252-423). -/
def add_report_sections (xml : String) (c : ReportContent) : String :=
  xml ++ main_info_chunk c ++ bank_chunk c ++ other_payments_chunk c ++ fee_chunk c ++
  remarks_chunk c

/-- Evidence-section header paragraph (lines 444-445). -/
def evidence_header_para : String :=
  "\n      <text:p text:style-name=\"P1\"><text:span text:style-name=\"T1Underline\">Evidence:</text:span></text:p>"

/-- The `Scammers real name` paragraph for a candidate name, guarded by the
truthiness and placeholder checks of lines 454 and 462. -/
def real_name_para (rn : String) : String :=
  if rn ≠ "" ∧ py_strip rn ≠ "" ∧ py_strip rn ≠ "(to be collected)" then
    "\n      <text:p text:style-name=\"P1\"><text:span text:style-name=\"T1Underline\">Scammers real name:</text:span> " ++ rn ++ "</text:p>"
  else ""

/-- Real-name selection of lines 447-464: the first entry of
`scammer_names` takes priority, the legacy `scammer_real_name` field is
used only when the list is empty. -/
def scammer_name_chunk (c : ReportContent) : String :=
  match c.scammer_names with
  | rn :: _ => real_name_para rn
  | [] => if c.scammer_real_name ≠ "" then real_name_para c.scammer_real_name else ""

/-- Fixed evidence display order of image categories (line 484). -/
def category_order : List String := ["passport_ids", "scammer_photos", "victim_ids", "others"]

/-- Python `str.title()`: uppercase every alphabetic character that follows
a non-alphabetic one, lowercase the rest (used only in the fallback label). -/
def title_case_go : Bool → List Char → List Char
  | _, [] => []
  | prevAlpha, ch :: rest =>
      (if ch.isAlpha then (if prevAlpha then ch.toLower else ch.toUpper) else ch) ::
      title_case_go ch.isAlpha rest

/-- Python `str.title()` on a string. -/
def title_case (s : String) : String := String.mk (title_case_go false s.toList)

/-- Category label lookup with the `.get` fallback of lines 468-473 and
498-499. -/
def category_label (cat : String) : String :=
  if cat = "passport_ids" then "Scammers passport/ID:"
  else if cat = "scammer_photos" then "Photo of scammer (video available):"
  else if cat = "victim_ids" then "Possible Victim / Money-Mule ID:"
  else if cat = "others" then "Others:"
  else title_case ((cat.replace "_" " ")) ++ ":"

/-- The image frame paragraph for one staged image (lines 504-511): frame
style `fr<index>`, name `Image<index>`, precomputed physical size, link to
the staged file, caption with the original filename. -/
def image_frame_para (e : ImageEntry) : String :=
  "\n      <text:p text:style-name=\"P1\">\n        <draw:frame draw:style-name=\"fr" ++ toString e.index ++
  "\" draw:name=\"Image" ++ toString e.index ++
  "\" \n          text:anchor-type=\"as-char\" svg:width=\"" ++ e.width ++
  "\" svg:height=\"" ++ e.height ++
  "\" draw:z-index=\"0\">\n          <draw:image xlink:href=\"Pictures/" ++ e.filename ++
  "\" xlink:type=\"simple\" xlink:show=\"embed\" xlink:actuate=\"onLoad\"/>\n          <svg:desc>" ++
  e.name ++ "</svg:desc>\n        </draw:frame>\n      </text:p>"

/-- One category block of the evidence section: a page break before every
category except the first, the category label, then the frames of that
category in staging order (lines 490-511). -/
def category_section (entries : List ImageEntry) (i : Nat) (cat : String) : String :=
  (if 0 < i then page_break_para else "") ++
  "\n      <text:p text:style-name=\"P1\"><text:span text:style-name=\"T1Underline\">" ++
  category_label cat ++ "</text:span></text:p>" ++
  String.join ((entries.filter (fun e => e.category = cat)).map image_frame_para)

/-- All evidence image blocks: the categories present, in the fixed order,
each rendered by `category_section` (lines 466-511).  Grouping the entries
by category preserves the per-category staging order, so the dict of the
source is modelled by `List.filter`. -/
def images_chunk (entries : List ImageEntry) : String :=
  if entries ≠ [] then
    let existing := category_order.filter (fun cat => entries.any (fun e => e.category = cat))
    String.join (existing.enum.map (fun ic => category_section entries ic.1 ic.2))
  else ""

/-- The gate of lines 429-437: the Evidence section is emitted only when a
scammer name, a legacy real name, or at least one staged image is present. -/
def should_show_evidence (c : ReportContent) (entries : List ImageEntry) : Bool :=
  (!c.scammer_names.isEmpty) || (c.scammer_real_name ≠ "") || (!entries.isEmpty)

/-- `_add_images_to_xml` (lines 425-517): early return when the gate
fails, otherwise page break, header, optional real-name paragraph, image
blocks, and a final spacer. -/
def add_images_to_xml (xml : String) (entries : List ImageEntry) (c : ReportContent) : String :=
  if should_show_evidence c entries then
    xml ++ page_break_para ++ evidence_header_para ++ scammer_name_chunk c ++
    images_chunk entries ++ pEmptyLine
  else xml

/-- `_create_content_xml` (lines 145-240): prologue, per-image automatic
styles, fixed text styles, title and timestamp, report sections, evidence
section, closing tags. -/
def create_content_xml (c : ReportContent) (entries : List ImageEntry) (now : String) : String :=
  add_images_to_xml
    (add_report_sections
      (content_header ++ String.join (entries.map image_style_chunk) ++ text_styles_block ++
        title_para c ++ generated_para now ++ pEmptyLine) c)
    entries c ++ content_footer

/-- `_create_styles_xml` (lines 519-542): a fixed document. -/
def create_styles_xml : String :=
  "<?xml version=\"1.0\" encoding=\"UTF-8\"?>\n<office:document-styles xmlns:office=\"urn:oasis:names:tc:opendocument:xmlns:office:1.0\"\n  xmlns:style=\"urn:oasis:names:tc:opendocument:xmlns:style:1.0\"\n  xmlns:text=\"urn:oasis:names:tc:opendocument:xmlns:text:1.0\"\n  office:version=\"1.3\">\n  \n  <office:styles>\n    <style:style style:name=\"Standard\" style:family=\"paragraph\">\n      <style:text-properties fo:font-size=\"12pt\" fo:font-family=\"Liberation Serif\"/>\n    </style:style>\n    <style:style style:name=\"Graphics\" style:family=\"graphic\">\n      <style:graphic-properties text:anchor-type=\"paragraph\" \n        style:horizontal-pos=\"center\" style:horizontal-rel=\"paragraph\"/>\n    </style:style>\n  </office:styles>\n</office:document-styles>"

/-- `_create_meta_xml` (lines 544-564), with the clock passed in. -/
def create_meta_xml (now : String) : String :=
  "<?xml version=\"1.0\" encoding=\"UTF-8\"?>\n<office:document-meta xmlns:office=\"urn:oasis:names:tc:opendocument:xmlns:office:1.0\"\n  xmlns:meta=\"urn:oasis:names:tc:opendocument:xmlns:meta:1.0\"\n  xmlns:dc=\"http://purl.org/dc/elements/1.1/\"\n  office:version=\"1.3\">\n  \n  <office:meta>\n    <meta:generator>Scam Report Builder</meta:generator>\n    <dc:creator>Scam Report Builder</dc:creator>\n    <dc:date>" ++ now ++ "</dc:date>\n    <meta:creation-date>" ++ now ++ "</meta:creation-date>\n  </office:meta>\n</office:document-meta>"

/-- ZIP entry compression method. -/
inductive Compression where
  | stored
  | deflated
deriving Repr, DecidableEq

/-- Payload of a ZIP entry: an XML/text part or staged image bytes. -/
inductive ZipData where
  | text (s : String)
  | bin (b : Bytes)
deriving Repr, DecidableEq

/-- One member of the produced archive, in write order. -/
structure ZipEntry where
  name : String
  compression : Compression
  data : ZipData
deriving Repr, DecidableEq

/-- The staging directory contents after steps 1-3 of `create_odt`. -/
structure TempDir where
  mimetype : String
  manifest : String
  contentXml : String
  stylesXml : String
  metaXml : String
  pictures : List (String × Bytes)
deriving Repr, DecidableEq

/-- Staged-file lookup, modelling `img_path.exists()` plus the read of the
file written by `_process_images`. -/
def lookup_file (files : List (String × Bytes)) (fn : String) : Option Bytes :=
  (files.find? (fun f => f.1 = fn)).map (fun f => f.2)

/-- `_create_odt_zip` (lines 566-589): the `mimetype` entry is written
first with `ZIP_STORED`; every other member uses the archive default
`ZIP_DEFLATED`; the write order is mimetype, the three XML parts, the
manifest, then one `Pictures/` member per image entry whose staged file
exists. -/
def create_odt_zip (temp : TempDir) (entries : List ImageEntry) : List ZipEntry :=
  ⟨"mimetype", Compression.stored, ZipData.text temp.mimetype⟩ ::
  ⟨"content.xml", Compression.deflated, ZipData.text temp.contentXml⟩ ::
  ⟨"styles.xml", Compression.deflated, ZipData.text temp.stylesXml⟩ ::
  ⟨"meta.xml", Compression.deflated, ZipData.text temp.metaXml⟩ ::
  ⟨"META-INF/manifest.xml", Compression.deflated, ZipData.text temp.manifest⟩ ::
  entries.filterMap (fun e => (lookup_file temp.pictures e.filename).map
    (fun b => ⟨"Pictures/" ++ e.filename, Compression.deflated, ZipData.bin b⟩))

/-- Steps 1-3 of `create_odt`: stage the images and produce the five text
parts in the temporary directory. -/
def build_temp (decode : Bytes → Option (Nat × Nat)) (c : ReportContent)
    (images : List (String × List (String × Option Bytes))) (now : String) :
    TempDir × List ImageEntry :=
  let pr := process_images decode images
  ({ mimetype := mimetype_content
     manifest := create_manifest pr.1
     contentXml := create_content_xml c pr.1 now
     stylesXml := create_styles_xml
     metaXml := create_meta_xml now
     pictures := pr.2 }, pr.1)

/-- The archive `create_odt` writes on a fault-free run. -/
def create_odt_full_zip (decode : Bytes → Option (Nat × Nat)) (c : ReportContent)
    (images : List (String × List (String × Option Bytes))) (now : String) : List ZipEntry :=
  let bt := build_temp decode c images now
  create_odt_zip bt.1 bt.2

/-- Failure model for `create_odt`: either no fault, a fault raised during
steps 1-3 (image processing / XML generation, before the destination file
is opened), or an I/O fault (e.g. disk full) that allows only `b` member
writes after `zipfile.ZipFile(output_path, "w")` has created/truncated the
destination file. -/
inductive Fault where
  | noFault
  | beforeZip
  | diskFullAfter (b : Nat)
deriving Repr, DecidableEq

/-- Sequential member writing with a fault budget: each successful step
appends one member to the destination file; an exhausted budget raises,
leaving the members written so far on disk. -/
def zip_write_run : List ZipEntry → Nat → List ZipEntry × Bool
  | [], _ => ([], true)
  | e :: rest, Nat.succ b =>
      let r := zip_write_run rest b
      (e :: r.1, r.2)
  | _ :: _, 0 => ([], false)

/-- Execution model of `create_odt` (lines 18-62): all staging happens in a
temporary directory; any exception is caught and surfaces as `false`; the
final archive is written member-by-member directly at the destination
path.  The result pairs the boolean return value with the contents of the
destination path (`none` = no file was created there). -/
def create_odt_run (fault : Fault) (decode : Bytes → Option (Nat × Nat)) (c : ReportContent)
    (images : List (String × List (String × Option Bytes))) (now : String) :
    Bool × Option (List ZipEntry) :=
  let full := create_odt_full_zip decode c images now
  match fault with
  | Fault.noFault => (true, some full)
  | Fault.beforeZip => (false, none)
  | Fault.diskFullAfter b =>
      let r := zip_write_run full b
      (r.2, some r.1)

/-- The standard base64 alphabet. -/
def b64Alphabet : List Char :=
  "ABCDEFGHIJKLMNOPQRSTUVWXYZabcdefghijklmnopqrstuvwxyz0123456789+/".toList

/-- Character for one six-bit group. -/
def sextetChar (n : Nat) : Char := b64Alphabet.getD n '?'

/-- Index of a base64 character in the alphabet. -/
def charSextet (ch : Char) : Nat := b64Alphabet.indexOf ch

/-- Standard base64 encoding of a byte list (RFC 4648, with `=` padding),
modelling Python `base64.b64encode`. -/
def b64EncodeBytes : List Nat → List Char
  | [] => []
  | [a] => [sextetChar (a / 4), sextetChar (a % 4 * 16), '=', '=']
  | [a, b] => [sextetChar (a / 4), sextetChar (a % 4 * 16 + b / 16), sextetChar (b % 16 * 4), '=']
  | a :: b :: c :: rest =>
      sextetChar (a / 4) :: sextetChar (a % 4 * 16 + b / 16) ::
      sextetChar (b % 16 * 4 + c / 64) :: sextetChar (c % 64) :: b64EncodeBytes rest

/-- Standard base64 decoding, modelling Python `base64.b64decode` on valid
input. -/
def b64DecodeChars : List Char → List Nat
  | c0 :: c1 :: c2 :: c3 :: rest =>
      let s0 := charSextet c0
      let s1 := charSextet c1
      if c2 = '=' then [s0 * 4 + s1 / 16]
      else
        let s2 := charSextet c2
        if c3 = '=' then [s0 * 4 + s1 / 16, s1 % 16 * 16 + s2 / 4]
        else
          (s0 * 4 + s1 / 16) :: (s1 % 16 * 16 + s2 / 4) ::
          (s2 % 4 * 64 + charSextet c3) :: b64DecodeChars rest
  | _ => []

/-- One image record of the snapshot file: original name plus base64 data
(`_save_report_data_to_json`, lines 748-757). -/
structure SavedImage where
  name : String
  data : String
deriving Repr, DecidableEq

/-- The `ReportSnapshot` JSON record written by `_save_report_data_to_json`
(lines 763-771). -/
structure SaveData where
  report_data : ReportContent
  images : List (String × List SavedImage)
  template_key : String
  report_number : Option Nat
  report_format : Option String
  original_odt_path : Option String
deriving Repr, DecidableEq

/-- `_save_report_data_to_json` (lines 744-778): report data is stored
verbatim; per category, every truthy image payload is base64-encoded
together with its name; report number and format are stored verbatim. -/
def save_report_data_to_json (rd : ReportContent)
    (images : List (String × List (String × Option Bytes))) (tk : String)
    (rn : Option Nat) (rf : Option String) (odt : Option String) : SaveData :=
  { report_data := rd
    images := images.map (fun ci =>
      (ci.1, ci.2.filterMap (fun nd =>
        match nd.2 with
        | some bs => if bs.isEmpty then none else some ⟨nd.1, String.mk (b64EncodeBytes bs)⟩
        | none => none)))
    template_key := tk
    report_number := rn
    report_format := rf
    original_odt_path := odt }

/-- The data-restoring part of `_load_report_from_json` (lines 924-957 and
1002-1017): report data, number and format are read back verbatim (the
`report_format` default applies only when the key is absent, and the save
step always writes it); every non-empty base64 payload is decoded back to
`(name, bytes)`. -/
def load_report_from_json (sd : SaveData) :
    ReportContent × List (String × List (String × Bytes)) × Option Nat × Option String :=
  (sd.report_data,
   sd.images.map (fun ci =>
     (ci.1, ci.2.filterMap (fun si =>
       if si.data = "" then none else some (si.name, b64DecodeChars si.data.toList)))),
   sd.report_number, sd.report_format)

/-- Minimal JSON values as parsed by `json.load` for template files. -/
inductive Json where
  | null
  | str (s : String)
  | arr (xs : List Json)
  | obj (kvs : List (String × Json))

/-- Key membership in an association list. -/
def assocHasKey (kvs : List (String × Json)) (k : String) : Bool :=
  kvs.any (fun kv => kv.1 = k)

/-- Lookup in a JSON object; `none` for non-objects and missing keys. -/
def Json.lookup : Json → String → Option Json
  | Json.obj kvs, k => (kvs.find? (fun kv => kv.1 = k)).map (fun kv => kv.2)
  | _, _ => none

/-- `TemplateManager._validate_template` (lines 335-353): the keys `name`,
`description` and `fields` must be present, `fields` must be a dict, and
every field definition must be a dict carrying both `type` and `label`.
No other check is performed. -/
def validate_template (t : Json) : Bool :=
  if (["name", "description", "fields"].all (fun k => (t.lookup k).isSome)) then
    match t.lookup "fields" with
    | some (Json.obj kvs) =>
        kvs.all (fun kv =>
          match kv.2 with
          | Json.obj fkvs => assocHasKey fkvs "type" && assocHasKey fkvs "label"
          | _ => false)
    | _ => false
  else false

/-- `TemplateManager.load_custom_templates` (lines 310-333): each parsed
file (given here as its stem and JSON value) is kept iff it validates, and
is keyed `custom-<stem>`; invalid files are skipped silently. -/
def load_custom_templates (files : List (String × Json)) : List (String × Json) :=
  files.filterMap (fun f =>
    if validate_template f.2 then some ("custom-" ++ f.1, f.2) else none)

/-- Modelled from the spec: the well-formedness predicate the specification
states for templates - every field definition carries at least a `type` and
a `label`, and every field key referenced by a section exists in the field
map. -/
def spec_well_formed_template (t : Json) : Bool :=
  (match t.lookup "fields" with
   | some (Json.obj kvs) =>
       kvs.all (fun kv =>
         match kv.2 with
         | Json.obj fkvs => assocHasKey fkvs "type" && assocHasKey fkvs "label"
         | _ => false) &&
       (match t.lookup "sections" with
        | some (Json.obj secs) =>
            secs.all (fun sec =>
              match sec.2 with
              | Json.arr ks => ks.all (fun k =>
                  match k with
                  | Json.str key => assocHasKey kvs key
                  | _ => false)
              | _ => false)
        | _ => true)
   | _ => false)

/-- The parameter list of `ODTGenerator.create_odt` (odt_generator.py lines
18-20). -/
def create_odt_param_names : List String := ["content", "output_path", "images"]

/-- The keyword arguments `MainWindow._export_report` passes to
`ODTGenerator.create_odt` (main_window.py lines 708-713). -/
def export_report_call_kwargs : List String := ["content", "output_path", "images", "template_key"]

/-- Python keyword-argument binding: a keyword argument whose name is not in
the parameter list raises `TypeError` before the callee body runs. -/
def bind_kwargs (params kwargs : List String) : Except String Unit :=
  match kwargs.find? (fun k => !params.contains k) with
  | some k => Except.error ("create_odt() got an unexpected keyword argument " ++ k)
  | none => Except.ok ()

/-- The export call of `_export_report` under its `try/except` (lines
692-742): a raised `TypeError` is caught by the generic handler, which
shows the `Failed to save report` dialog; no archive is ever assembled on
that path.  The result pairs the archive contents produced (if any) with
the user-visible outcome message. -/
def export_report_run (decode : Bytes → Option (Nat × Nat)) (c : ReportContent)
    (images : List (String × List (String × Option Bytes))) (now : String) :
    Option (List ZipEntry) × String :=
  match bind_kwargs create_odt_param_names export_report_call_kwargs with
  | Except.error e => (none, "Failed to save report:\n" ++ e)
  | Except.ok _ => (some (create_odt_full_zip decode c images now), "Report Created Successfully")

/-- Index of the first occurrence of `pat` starting at offset `i`. -/
def first_idx_aux (pat : List Char) : List Char → Nat → Option Nat
  | [], i => if pat.isPrefixOf [] then some i else none
  | ch :: rest, i =>
      if pat.isPrefixOf (ch :: rest) then some i else first_idx_aux pat rest (i + 1)

/-- Index of the first occurrence of `pat` in `s`, if any. -/
def first_idx (s pat : String) : Option Nat := first_idx_aux pat.toList s.toList 0

/-- Whether the first occurrence of `p1` is strictly before the first
occurrence of `p2` (presence of `p1` required). -/
def occurs_before (s p1 p2 : String) : Bool :=
  match first_idx s p1, first_idx s p2 with
  | some i, some j => decide (i < j)
  | some _, none => true
  | none, _ => false

/-- Whether a character sequence begins with the tail of one of the five
predefined XML entity references (`amp;`, `lt;`, `gt;`, `quot;`,
`apos;`). -/
def entity_tail_ok : List Char → Bool
  | 'a' :: 'm' :: 'p' :: ';' :: _ => true
  | 'l' :: 't' :: ';' :: _ => true
  | 'g' :: 't' :: ';' :: _ => true
  | 'q' :: 'u' :: 'o' :: 't' :: ';' :: _ => true
  | 'a' :: 'p' :: 'o' :: 's' :: ';' :: _ => true
  | _ => false

/-- XML well-formedness of ampersands: every `&` must begin one of the five
predefined entity references.  A bare `&` makes the document ill-formed. -/
def amp_ok : List Char → Bool
  | [] => true
  | ch :: rest =>
      if ch = '&' then entity_tail_ok rest && amp_ok rest
      else amp_ok rest

/-- Ampersand well-formedness of a string. -/
def amp_ok_str (s : String) : Bool := amp_ok s.toList

/-- A decoder that always fails (dimension probing falls back to the
placeholder size); concrete runs below use it. -/
def dec0 : Bytes → Option (Nat × Nat) := fun _ => none

/-- Report content with every field absent/empty. -/
def cEmpty : ReportContent := ⟨"", "", [], [], [], [], [], "", [], [], "", [], [], ""⟩

/-- Concrete content exercising the payment, remarks and evidence sections
together: one bank account, one other payment, a fee, a remark, and a
scammer name. -/
def cPay : ReportContent :=
  ⟨"", "", [], [], [], [], [], "", ["B"], [⟨"PT", "PD"⟩], "5", ["r"], ["John"], ""⟩

/-- Concrete content whose summary contains an XML-special character. -/
def cAmp : ReportContent :=
  ⟨"", "Fish & Chips", [], [], [], [], [], "", [], [], "", [], [], ""⟩

/-- A custom-template JSON whose fields all carry `type` and `label` but
whose section layout references a field key `ghost` that does not exist in
the field map. -/
def tGhost : Json :=
  Json.obj [("name", Json.str "T"), ("description", Json.str "d"),
    ("fields", Json.obj [("a", Json.obj [("type", Json.str "text"), ("label", Json.str "A")])]),
    ("sections", Json.obj [("Main Info:", Json.arr [Json.str "ghost"])])]

/-- Concrete image mapping with two truthy images in different categories
and one skipped `None` payload. -/
def imagesTwo : List (String × List (String × Option Bytes)) :=
  [("passport_ids", [("p1.png", some [1, 2]), ("skip", none)]),
   ("others", [("o1.png", some [3])])]

/-- Concrete image mapping for the snapshot round trip. -/
def imagesSnap : List (String × List (String × Option Bytes)) :=
  [("passport_ids", [("a.jpg", some [65, 255])])]

/-- Decoding a base64 alphabet character recovers its sextet. -/
theorem charSextet_sextetChar : ∀ n, n < 64 → charSextet (sextetChar n) = n := by decide

/-- No base64 alphabet character is the padding character. -/
theorem sextetChar_ne_pad : ∀ n, n < 64 → sextetChar n ≠ '=' := by decide

/-- Base64 decoding inverts encoding on byte lists. -/
theorem b64_roundtrip : ∀ l : List Nat, (∀ x ∈ l, x < 256) →
    b64DecodeChars (b64EncodeBytes l) = l
  | [], _ => rfl
  | [a], h => by
      have ha : a < 256 := h a (by simp)
      have h1 : a / 4 < 64 := by omega
      have h2 : a % 4 * 16 < 64 := by omega
      have e1 : a % 4 * 16 / 16 = a % 4 := by omega
      simp [b64EncodeBytes, b64DecodeChars,
        charSextet_sextetChar _ h1, charSextet_sextetChar _ h2, e1]
      omega
  | [a, b], h => by
      have ha : a < 256 := h a (by simp)
      have hb : b < 256 := h b (by simp)
      have h1 : a / 4 < 64 := by omega
      have h2 : a % 4 * 16 + b / 16 < 64 := by omega
      have h3 : b % 16 * 4 < 64 := by omega
      have e1 : (a % 4 * 16 + b / 16) / 16 = a % 4 := by omega
      have e2 : (a % 4 * 16 + b / 16) % 16 = b / 16 := by omega
      have e3 : b % 16 * 4 / 4 = b % 16 := by omega
      simp [b64EncodeBytes, b64DecodeChars, sextetChar_ne_pad _ h3,
        charSextet_sextetChar _ h1, charSextet_sextetChar _ h2, charSextet_sextetChar _ h3,
        e1, e2, e3]
      constructor
      · omega
      · omega
  | a :: b :: c :: rest, h => by
      have ha : a < 256 := h a (by simp)
      have hb : b < 256 := h b (by simp)
      have hc : c < 256 := h c (by simp)
      have h1 : a / 4 < 64 := by omega
      have h2 : a % 4 * 16 + b / 16 < 64 := by omega
      have h3 : b % 16 * 4 + c / 64 < 64 := by omega
      have h4 : c % 64 < 64 := by omega
      have e1 : (a % 4 * 16 + b / 16) / 16 = a % 4 := by omega
      have e2 : (a % 4 * 16 + b / 16) % 16 = b / 16 := by omega
      have e3 : (b % 16 * 4 + c / 64) / 4 = b % 16 := by omega
      have e4 : (b % 16 * 4 + c / 64) % 4 = c / 64 := by omega
      have ih := b64_roundtrip rest (fun x hx => h x (by simp [hx]))
      simp [b64EncodeBytes, b64DecodeChars, sextetChar_ne_pad _ h3, sextetChar_ne_pad _ h4,
        charSextet_sextetChar _ h1, charSextet_sextetChar _ h2, charSextet_sextetChar _ h3,
        charSextet_sextetChar _ h4, e1, e2, e3, e4, ih]
      refine ⟨by omega, by omega, by omega⟩

/-- Encoding a nonempty byte list yields a nonempty character list. -/
theorem b64EncodeBytes_ne_nil : ∀ l : List Nat, l ≠ [] → b64EncodeBytes l ≠ []
  | [], h => absurd rfl h
  | [_], _ => by simp [b64EncodeBytes]
  | [_, _], _ => by simp [b64EncodeBytes]
  | _ :: _ :: _ :: _, _ => by simp [b64EncodeBytes]

/-- Writing members with a fault budget produces the prefix that fits and
succeeds exactly when the whole archive fits. -/
theorem zip_write_run_eq (l : List ZipEntry) (b : Nat) :
    zip_write_run l b = (l.take b, decide (l.length ≤ b)) := by
  induction l generalizing b with
  | nil => simp [zip_write_run]
  | cons e rest ih =>
      cases b with
      | zero => simp [zip_write_run]
      | succ b => simp [zip_write_run, ih, Nat.succ_le_succ_iff]

/-- The Boolean evidence gate as a proposition. -/
theorem should_show_evidence_iff (c : ReportContent) (entries : List ImageEntry) :
    should_show_evidence c entries = true ↔
      (c.scammer_names ≠ [] ∨ c.scammer_real_name ≠ "" ∨ entries ≠ []) := by
  simp [should_show_evidence, List.isEmpty_iff, or_assoc]

/-- Shape of any archive produced by `_create_odt_zip`: `mimetype` is the
first member and is stored; every later member is deflated. -/
theorem create_odt_zip_shape (temp : TempDir) (entries : List ImageEntry) :
    (create_odt_zip temp entries).head? =
      some ⟨"mimetype", Compression.stored, ZipData.text temp.mimetype⟩ ∧
    ∀ e ∈ (create_odt_zip temp entries).drop 1, e.compression = Compression.deflated := by
  refine ⟨rfl, ?_⟩
  intro e he
  simp only [create_odt_zip, List.drop_succ_cons, List.drop_zero, List.mem_cons,
    List.mem_filterMap] at he
  rcases he with rfl | rfl | rfl | rfl | ⟨a, -, hfa⟩
  · rfl
  · rfl
  · rfl
  · rfl
  · rcases Option.map_eq_some'.mp hfa with ⟨b, -, rfl⟩
    rfl

/-- C1: whenever `create_odt` returns `True`, the archive written at the
destination path has `mimetype` as its first member, stored without
compression, with content exactly `application/vnd.oasis.opendocument.text`,
and every other member deflated. -/
theorem mimetype_first_stored_rest_deflated (fault : Fault)
    (decode : Bytes → Option (Nat × Nat)) (c : ReportContent)
    (images : List (String × List (String × Option Bytes))) (now : String) (z : List ZipEntry)
    (h : create_odt_run fault decode c images now = (true, some z)) :
    z.head? = some ⟨"mimetype", Compression.stored,
      ZipData.text "application/vnd.oasis.opendocument.text"⟩ ∧
    ∀ e ∈ z.drop 1, e.compression = Compression.deflated := by
  have hz : z = create_odt_full_zip decode c images now := by
    cases fault with
    | noFault =>
        simp only [create_odt_run, Prod.mk.injEq, Option.some.injEq] at h
        exact h.2.symm
    | beforeZip => simp [create_odt_run] at h
    | diskFullAfter b =>
        simp only [create_odt_run, zip_write_run_eq, Prod.mk.injEq, Option.some.injEq,
          decide_eq_true_eq] at h
        rw [← h.2, List.take_of_length_le h.1]
  subst hz
  have hshape := create_odt_zip_shape (build_temp decode c images now).1
    (build_temp decode c images now).2
  exact ⟨hshape.1, hshape.2⟩

/-- Witness for C1 at a concrete fault-free run. -/
theorem mimetype_first_stored_rest_deflated_witness :
    (create_odt_full_zip dec0 cEmpty [] "t").head? =
      some ⟨"mimetype", Compression.stored,
        ZipData.text "application/vnd.oasis.opendocument.text"⟩ ∧
    ∀ e ∈ (create_odt_full_zip dec0 cEmpty [] "t").drop 1,
      e.compression = Compression.deflated :=
  mimetype_first_stored_rest_deflated Fault.noFault dec0 cEmpty [] "t"
    (create_odt_full_zip dec0 cEmpty [] "t") rfl

/-- C2 counterexample: a disk-full fault after two member writes makes
`create_odt` return `False`, yet a nonempty truncated archive is left at
the destination path, contradicting the claim that no partial or corrupt
file is ever left there. -/
theorem zip_fault_leaves_truncated_file :
    (create_odt_run (Fault.diskFullAfter 2) dec0 cEmpty [] "t").1 = false ∧
    ∃ truncatedFile,
      (create_odt_run (Fault.diskFullAfter 2) dec0 cEmpty [] "t").2 = some truncatedFile ∧
      truncatedFile ≠ [] ∧
      truncatedFile ≠ create_odt_full_zip dec0 cEmpty [] "t" := by
  have hlen : (create_odt_full_zip dec0 cEmpty [] "t").length = 5 := rfl
  refine ⟨?_, (create_odt_full_zip dec0 cEmpty [] "t").take 2, ?_, ?_, ?_⟩
  · simp [create_odt_run, zip_write_run_eq, hlen]
  · simp [create_odt_run, zip_write_run_eq]
  · intro hcontra
    have := congrArg List.length hcontra
    simp [List.length_take, hlen] at this
  · intro hcontra
    have := congrArg List.length hcontra
    simp [List.length_take, hlen] at this

/-- C2 (amended): every failure is caught and surfaced as `False`; a
failure before ZIP creation leaves no file at the destination, but because
the archive is written directly at the destination path (not atomically),
a disk-full failure during ZIP writing leaves a strict prefix of the
intended archive there. -/
theorem create_odt_failure_semantics (fault : Fault) (decode : Bytes → Option (Nat × Nat))
    (c : ReportContent) (images : List (String × List (String × Option Bytes))) (now : String) :
    ((create_odt_run fault decode c images now).1 = true →
      (create_odt_run fault decode c images now).2 =
        some (create_odt_full_zip decode c images now)) ∧
    ((create_odt_run fault decode c images now).1 = false →
      (create_odt_run fault decode c images now).2 = none ∨
      ∃ b, fault = Fault.diskFullAfter b ∧
        (create_odt_run fault decode c images now).2 =
          some ((create_odt_full_zip decode c images now).take b) ∧
        (create_odt_full_zip decode c images now).take b ≠
          create_odt_full_zip decode c images now) := by
  cases fault with
  | noFault => exact ⟨fun _ => rfl, fun h => by simp [create_odt_run] at h⟩
  | beforeZip => exact ⟨fun h => by simp [create_odt_run] at h, fun _ => Or.inl rfl⟩
  | diskFullAfter b =>
      constructor
      · intro h
        simp only [create_odt_run, zip_write_run_eq, decide_eq_true_eq] at h ⊢
        rw [List.take_of_length_le h]
      · intro h
        simp only [create_odt_run, zip_write_run_eq, decide_eq_false_iff_not, not_le] at h
        refine Or.inr ⟨b, rfl, by simp [create_odt_run, zip_write_run_eq], ?_⟩
        intro hcontra
        have := congrArg List.length hcontra
        simp only [List.length_take] at this
        omega

/-- Witness for C2 (amended) at a fault-free run and at a pre-ZIP fault. -/
theorem create_odt_failure_semantics_witness :
    (create_odt_run Fault.noFault dec0 cEmpty [] "t").2 =
      some (create_odt_full_zip dec0 cEmpty [] "t") ∧
    ((create_odt_run Fault.beforeZip dec0 cEmpty [] "t").2 = none ∨
      ∃ b, Fault.beforeZip = Fault.diskFullAfter b ∧
        (create_odt_run Fault.beforeZip dec0 cEmpty [] "t").2 =
          some ((create_odt_full_zip dec0 cEmpty [] "t").take b) ∧
        (create_odt_full_zip dec0 cEmpty [] "t").take b ≠
          create_odt_full_zip dec0 cEmpty [] "t") :=
  ⟨(create_odt_failure_semantics Fault.noFault dec0 cEmpty [] "t").1 rfl,
   (create_odt_failure_semantics Fault.beforeZip dec0 cEmpty [] "t").2 rfl⟩

/-- C5: the Evidence section is emitted iff the scammer-names list is
nonempty, the legacy real-name field is nonempty, or at least one image
was staged; when the gate fails the output is exactly the input (no
header, page break or content), and when it holds the evidence block is
appended. -/
theorem evidence_section_iff (xml : String) (entries : List ImageEntry) (c : ReportContent) :
    (add_images_to_xml xml entries c = xml ↔
      ¬(c.scammer_names ≠ [] ∨ c.scammer_real_name ≠ "" ∨ entries ≠ [])) ∧
    ((c.scammer_names ≠ [] ∨ c.scammer_real_name ≠ "" ∨ entries ≠ []) →
      add_images_to_xml xml entries c =
        xml ++ page_break_para ++ evidence_header_para ++ scammer_name_chunk c ++
          images_chunk entries ++ pEmptyLine) := by
  by_cases hb : should_show_evidence c entries = true
  · have hcond := (should_show_evidence_iff c entries).mp hb
    have hout : add_images_to_xml xml entries c =
        xml ++ page_break_para ++ evidence_header_para ++ scammer_name_chunk c ++
          images_chunk entries ++ pEmptyLine := by
      rw [add_images_to_xml, if_pos hb]
    refine ⟨⟨fun heq => absurd ?_ (not_not.mpr hcond), fun hn => absurd hcond hn⟩, fun _ => hout⟩
    exfalso
    rw [hout] at heq
    have hlen := congrArg String.length heq
    have hpb : page_break_para.length ≠ 0 := by decide
    simp only [String.length_append] at hlen
    omega
  · have hcond := hb ∘ (should_show_evidence_iff c entries).mpr
    have hout : add_images_to_xml xml entries c = xml := by
      rw [add_images_to_xml, if_neg hb]
    exact ⟨⟨fun _ => hcond, fun _ => hout⟩, fun hc => absurd hc hcond⟩

/-- Witness for C5: no evidence output for the empty report and the exact
evidence block for a report carrying a scammer name. -/
theorem evidence_section_iff_witness :
    add_images_to_xml "x" [] cEmpty = "x" ∧
    add_images_to_xml "x" [] cPay =
      "x" ++ page_break_para ++ evidence_header_para ++ scammer_name_chunk cPay ++
        images_chunk [] ++ pEmptyLine :=
  ⟨(evidence_section_iff "x" [] cEmpty).1.mpr (by simp [cEmpty]),
   (evidence_section_iff "x" [] cPay).2 (Or.inl (by simp [cPay]))⟩

/-- Literal split of the bank-section header around its marker text. -/
theorem bank_header_split :
    "\n      <text:p text:style-name=\"P1BoldUnderline\">BANK ACCOUNTS</text:p>" =
    "\n      <text:p text:style-name=\"P1BoldUnderline\">" ++ "BANK ACCOUNTS" ++ "</text:p>" := rfl

/-- Literal split of the other-payments header around its marker text. -/
theorem other_header_split :
    "\n      <text:p text:style-name=\"P1\"><text:span text:style-name=\"T1Underline\">Other payment methods:</text:span></text:p>" =
    "\n      <text:p text:style-name=\"P1\"><text:span text:style-name=\"T1Underline\">" ++
      "Other payment methods:" ++ "</text:span></text:p>" := rfl

/-- Literal split of the fee paragraph opener around its marker text. -/
theorem fee_header_split :
    "\n      <text:p text:style-name=\"P1\"><text:span text:style-name=\"T1Underline\">Fee/Amount:</text:span> " =
    "\n      <text:p text:style-name=\"P1\"><text:span text:style-name=\"T1Underline\">" ++
      "Fee/Amount:" ++ "</text:span> " := rfl

/-- Literal split of the remarks header around its marker text. -/
theorem remarks_header_split :
    "\n      <text:p text:style-name=\"P1\"><text:span text:style-name=\"T1Underline\">Remarks:</text:span></text:p>" =
    "\n      <text:p text:style-name=\"P1\"><text:span text:style-name=\"T1Underline\">" ++
      "Remarks:" ++ "</text:span></text:p>" := rfl

/-- Literal split of the evidence header around its marker text. -/
theorem evidence_header_split :
    evidence_header_para =
    "\n      <text:p text:style-name=\"P1\"><text:span text:style-name=\"T1Underline\">" ++
      "Evidence:" ++ "</text:span></text:p>" := rfl

set_option maxRecDepth 40000 in
/-- C3 counterexample: on a report with a bank account, an other payment,
a fee, a remark and a scammer name, the generated document places
`BANK ACCOUNTS` strictly before `Fee/Amount:` (the claim says fee/amount
comes first), and the `Evidence:` section after `Remarks:` (the claim says
the remarks list is the trailing section). -/
theorem payment_order_counterexample :
    occurs_before (add_images_to_xml (add_report_sections "" cPay) [] cPay)
      "BANK ACCOUNTS" "Fee/Amount:" = true ∧
    occurs_before (add_images_to_xml (add_report_sections "" cPay) [] cPay)
      "Fee/Amount:" "BANK ACCOUNTS" = false ∧
    occurs_before (add_images_to_xml (add_report_sections "" cPay) [] cPay)
      "Remarks:" "Evidence:" = true ∧
    occurs_before (add_images_to_xml (add_report_sections "" cPay) [] cPay)
      "Evidence:" "Remarks:" = false := by
  refine ⟨?_, ?_, ?_, ?_⟩ <;> rfl

/-- C3 (amended): after the Main-Info paragraphs the document renders the
bank-account sub-blocks first, then the other-payment sub-blocks, then the
fee/amount paragraph, then the Remarks bullet list, and the conditional
Evidence section is the trailing section, appended after all report
sections. -/
theorem section_order_theorem (x : String) (c : ReportContent) (entries : List ImageEntry)
    (hb : c.bank_info ≠ []) (ho : c.other_payments ≠ []) (ha : c.amount ≠ "")
    (hr : c.remarks ≠ []) (hse : should_show_evidence c entries = true) :
    add_images_to_xml (add_report_sections x c) entries c =
      add_report_sections x c ++ page_break_para ++ evidence_header_para ++
        scammer_name_chunk c ++ images_chunk entries ++ pEmptyLine ∧
    ∃ s0 s1 s2 s3 s4 s5,
      add_images_to_xml (add_report_sections x c) entries c =
        s0 ++ "BANK ACCOUNTS" ++ s1 ++ "Other payment methods:" ++ s2 ++ "Fee/Amount:" ++
          s3 ++ "Remarks:" ++ s4 ++ "Evidence:" ++ s5 := by
  constructor
  · rw [add_images_to_xml, if_pos hse]
  · refine ⟨x ++ main_info_chunk c ++ "\n      <text:p text:style-name=\"P1BoldUnderline\">",
      "</text:p>" ++ bank_blocks 1 c.bank_info ++ pEmptyLine ++
        "\n      <text:p text:style-name=\"P1\"><text:span text:style-name=\"T1Underline\">",
      "</text:span></text:p>" ++ String.join (c.other_payments.map payment_block) ++ pEmptyLine ++
        "\n      <text:p text:style-name=\"P1\"><text:span text:style-name=\"T1Underline\">",
      "</text:span> " ++ c.amount ++ "</text:p>" ++ pEmptyLine ++ pEmptyLine ++
        "\n      <text:p text:style-name=\"P1\"><text:span text:style-name=\"T1Underline\">",
      "</text:span></text:p>" ++
        String.join (c.remarks.map (fun r =>
          "\n      <text:p text:style-name=\"ListBullet\">- " ++ r ++ "</text:p>")) ++
        pEmptyLine ++ page_break_para ++
        "\n      <text:p text:style-name=\"P1\"><text:span text:style-name=\"T1Underline\">",
      "</text:span></text:p>" ++ scammer_name_chunk c ++ images_chunk entries ++ pEmptyLine,
      ?_⟩
    rw [add_images_to_xml, if_pos hse]
    simp only [add_report_sections, bank_chunk, if_pos hb, other_payments_chunk, if_pos ho,
      fee_chunk, if_pos ha, remarks_chunk, if_pos hr]
    rw [bank_header_split, other_header_split, fee_header_split, remarks_header_split,
      evidence_header_split]
    simp only [String.append_assoc]

/-- Witness for C3 (amended) at the concrete payment report. -/
theorem section_order_theorem_witness :
    add_images_to_xml (add_report_sections "" cPay) [] cPay =
      add_report_sections "" cPay ++ page_break_para ++ evidence_header_para ++
        scammer_name_chunk cPay ++ images_chunk [] ++ pEmptyLine ∧
    ∃ s0 s1 s2 s3 s4 s5,
      add_images_to_xml (add_report_sections "" cPay) [] cPay =
        s0 ++ "BANK ACCOUNTS" ++ s1 ++ "Other payment methods:" ++ s2 ++ "Fee/Amount:" ++
          s3 ++ "Remarks:" ++ s4 ++ "Evidence:" ++ s5 :=
  section_order_theorem "" cPay []
    (by simp [cPay]) (by simp [cPay]) (by simp [cPay]) (by simp [cPay]) (by rfl)

/-- A bare ampersand followed by a space makes the ampersand check fail,
wherever it occurs. -/
theorem amp_break : ∀ l1 l2 : List Char, amp_ok (l1 ++ '&' :: ' ' :: l2) = false
  | [], l2 => by simp [amp_ok, entity_tail_ok]
  | ch :: t, l2 => by
      by_cases hch : ch = '&'
      · simp [amp_ok, hch, amp_break t l2]
      · simp [amp_ok, hch, amp_break t l2]

/-- An ill-formed suffix makes the whole document ill-formed. -/
theorem amp_ok_append_false : ∀ l1 l2 : List Char, amp_ok l2 = false →
    amp_ok (l1 ++ l2) = false
  | [], _, h => h
  | ch :: t, l2, h => by
      by_cases hch : ch = '&'
      · simp [amp_ok, hch, amp_ok_append_false t l2 h]
      · simp [amp_ok, hch, amp_ok_append_false t l2 h]

/-- Any string beginning with the raw value `Fish & Chips` fails the
ampersand well-formedness check. -/
theorem amp_fish (t : String) : amp_ok_str ("Fish & Chips" ++ t) = false := by
  rw [amp_ok_str]
  rw [show ("Fish & Chips" ++ t).toList =
      ['F', 'i', 's', 'h', ' '] ++ '&' :: ' ' :: (['C', 'h', 'i', 'p', 's'] ++ t.toList) from rfl]
  exact amp_break _ _

/-- C4 counterexample: a summary containing an ampersand is interpolated
verbatim into `content.xml` (the emitted document decomposes around the
raw string `Fish & Chips`), and the resulting document has a bare `&` that
begins no entity reference, so it is not well-formed XML - no escaping is
performed anywhere. -/
theorem no_xml_escaping_counterexample :
    create_content_xml cAmp [] "2025-01-01 00:00:00" =
      (content_header ++ text_styles_block ++ title_para cAmp ++
        generated_para "2025-01-01 00:00:00" ++ pEmptyLine ++ type_chunk cAmp ++
        "\n      <text:p text:style-name=\"P1\"><text:span text:style-name=\"T1Underline\">Short summary:</text:span> ") ++
      "Fish & Chips" ++
      ("</text:p>" ++ pEmptyLine ++ alias_chunk cAmp ++ emails_chunk cAmp ++
        websites_chunk cAmp ++ ips_chunk cAmp ++ locations_chunk cAmp ++ started_chunk cAmp ++
        pEmptyLine ++ bank_chunk cAmp ++ other_payments_chunk cAmp ++ fee_chunk cAmp ++
        remarks_chunk cAmp ++ content_footer) ∧
    amp_ok_str (create_content_xml cAmp [] "2025-01-01 00:00:00") = false := by
  have hs : cAmp.summary ≠ "" := by decide
  have hgate : ¬(should_show_evidence cAmp [] = true) := by decide
  have hsum : cAmp.summary = "Fish & Chips" := rfl
  have hx : create_content_xml cAmp [] "2025-01-01 00:00:00" =
      (content_header ++ text_styles_block ++ title_para cAmp ++
        generated_para "2025-01-01 00:00:00" ++ pEmptyLine ++ type_chunk cAmp ++
        "\n      <text:p text:style-name=\"P1\"><text:span text:style-name=\"T1Underline\">Short summary:</text:span> ") ++
      "Fish & Chips" ++
      ("</text:p>" ++ pEmptyLine ++ alias_chunk cAmp ++ emails_chunk cAmp ++
        websites_chunk cAmp ++ ips_chunk cAmp ++ locations_chunk cAmp ++ started_chunk cAmp ++
        pEmptyLine ++ bank_chunk cAmp ++ other_payments_chunk cAmp ++ fee_chunk cAmp ++
        remarks_chunk cAmp ++ content_footer) := by
    simp only [create_content_xml, List.map_nil, add_images_to_xml]
    rw [if_neg hgate]
    simp only [add_report_sections, main_info_chunk, summary_chunk, if_pos hs,
      show String.join [] = "" from rfl]
    rw [hsum]
    simp only [String.append_empty, String.append_assoc]
  refine ⟨hx, ?_⟩
  rw [hx, String.append_assoc, amp_ok_str]
  rw [show ∀ s1 s2 : String, (s1 ++ s2).toList = s1.toList ++ s2.toList from
    fun s1 s2 => String.data_append s1 s2]
  exact amp_ok_append_false _ _ (amp_fish _)

/-- C4 (amended): the generator applies no XML escaping - every string
value is interpolated verbatim into the markup, so XML-special characters
in the input reach the output unchanged (and can make the document
ill-formed, as the counterexample shows). -/
theorem verbatim_interpolation (x : String) (c : ReportContent) (hs : c.summary ≠ "") :
    ∃ b, add_report_sections x c =
      (x ++ type_chunk c ++
        "\n      <text:p text:style-name=\"P1\"><text:span text:style-name=\"T1Underline\">Short summary:</text:span> ") ++
      c.summary ++ b := by
  refine ⟨"</text:p>" ++ pEmptyLine ++ alias_chunk c ++ emails_chunk c ++ websites_chunk c ++
    ips_chunk c ++ locations_chunk c ++ started_chunk c ++ pEmptyLine ++ bank_chunk c ++
    other_payments_chunk c ++ fee_chunk c ++ remarks_chunk c, ?_⟩
  simp only [add_report_sections, main_info_chunk, summary_chunk, if_pos hs]
  simp only [String.append_assoc]

/-- Witness for C4 (amended) at the ampersand-carrying report. -/
theorem verbatim_interpolation_witness :
    ∃ b, add_report_sections "" cAmp =
      ("" ++ type_chunk cAmp ++
        "\n      <text:p text:style-name=\"P1\"><text:span text:style-name=\"T1Underline\">Short summary:</text:span> ") ++
      cAmp.summary ++ b :=
  verbatim_interpolation "" cAmp (by simp [cAmp])

/-- Invariants of the inner image-processing loop: sequential indices
starting at the incoming counter, the final counter value, derived
filenames, and staged files matching the entries one-to-one. -/
theorem process_cat_spec (decode : Bytes → Option (Nat × Nat)) (cat : String) :
    ∀ (l : List (String × Option Bytes)) (k : Nat),
      (process_cat decode cat k l).1.map ImageEntry.index =
        List.range' k (process_cat decode cat k l).1.length ∧
      (process_cat decode cat k l).2.2 = k + (process_cat decode cat k l).1.length ∧
      (∀ e ∈ (process_cat decode cat k l).1,
        e.filename = "image_" ++ toString e.index ++ ".jpg") ∧
      (process_cat decode cat k l).2.1.map Prod.fst =
        (process_cat decode cat k l).1.map ImageEntry.filename := by
  intro l
  induction l with
  | nil => intro k; simp [process_cat]
  | cons p rest ih =>
      intro k
      obtain ⟨nm, dat⟩ := p
      by_cases h : data_truthy dat
      · have ihk := ih (k + 1)
        simp only [process_cat, h, if_true, List.map_cons, List.length_cons, List.mem_cons]
        refine ⟨?_, ?_, ?_, ?_⟩
        · rw [List.range'_succ, ihk.1]
        · have := ihk.2.1
          omega
        · exact fun e he => he.elim (fun hee => by subst hee; rfl) (fun hee => ihk.2.2.1 e hee)
        · simp [ihk.2.2.2]
      · simp only [process_cat, h, if_false]
        exact ih k

/-- Invariants of the outer image-processing loop: across all categories
the indices form `range' k n`, filenames are derived from the index, and
the staged files match the entries one-to-one. -/
theorem process_images_go_spec (decode : Bytes → Option (Nat × Nat)) :
    ∀ (imgs : List (String × List (String × Option Bytes))) (k : Nat),
      (process_images_go decode k imgs).1.map ImageEntry.index =
        List.range' k (process_images_go decode k imgs).1.length ∧
      (∀ e ∈ (process_images_go decode k imgs).1,
        e.filename = "image_" ++ toString e.index ++ ".jpg") ∧
      (process_images_go decode k imgs).2.map Prod.fst =
        (process_images_go decode k imgs).1.map ImageEntry.filename := by
  intro imgs
  induction imgs with
  | nil => intro k; simp [process_images_go]
  | cons p rest ih =>
      intro k
      obtain ⟨cat, l⟩ := p
      have hcat := process_cat_spec decode cat l k
      have ihk := ih (process_cat decode cat k l).2.2
      simp only [process_images_go, List.map_append, List.length_append, List.mem_append]
      refine ⟨?_, ?_, ?_⟩
      · rw [hcat.1, ihk.1, hcat.2.1, List.range'_append_1]
        rw [Nat.add_comm]
      · exact fun e he => he.elim (fun h1 => hcat.2.2.1 e h1) (fun h2 => ihk.2.1 e h2)
      · rw [hcat.2.2.2, ihk.2.2]

/-- A staged filename present among the staged files can be looked up. -/
theorem lookup_isSome_of_mem_names (files : List (String × Bytes)) (fn : String)
    (h : fn ∈ files.map Prod.fst) : (lookup_file files fn).isSome := by
  obtain ⟨x, hx, rfl⟩ := List.mem_map.mp h
  have hfind : (files.find? (fun f => f.1 = x.1)).isSome := by
    rw [List.find?_isSome]
    exact ⟨x, hx, by simp⟩
  obtain ⟨y, hy⟩ := Option.isSome_iff_exists.mp hfind
  simp [lookup_file, hy]

/-- Mapping names over the picture members recovers the archive paths of
all entries whose staged file exists. -/
theorem picture_member_names (files : List (String × Bytes)) :
    ∀ entries : List ImageEntry, (∀ e ∈ entries, (lookup_file files e.filename).isSome) →
      (entries.filterMap (fun e => (lookup_file files e.filename).map
        (fun b => (⟨"Pictures/" ++ e.filename, Compression.deflated, ZipData.bin b⟩ : ZipEntry)))).map
          ZipEntry.name =
        entries.map (fun e => "Pictures/" ++ e.filename)
  | [], _ => rfl
  | e :: rest, h => by
      obtain ⟨b, hb⟩ := Option.isSome_iff_exists.mp (h e (by simp))
      simp [hb, picture_member_names files rest (fun x hx => h x (by simp [hx]))]

/-- C6: staged-image indices form the contiguous range `1..n` in assignment
order across categories; each index derives the stored filename
`image_<index>.jpg` and the `fr<index>` style; the manifest consists of the
fixed header, exactly one `image/jpeg` line per staged image in order, and
the closing tag; and the archive's picture members correspond one-to-one,
in the same order, to the staged images. -/
theorem image_index_invariants (decode : Bytes → Option (Nat × Nat))
    (images : List (String × List (String × Option Bytes))) (c : ReportContent) (now : String) :
    (process_images decode images).1.map ImageEntry.index =
      List.range' 1 (process_images decode images).1.length ∧
    ((process_images decode images).1.map ImageEntry.index).Nodup ∧
    (∀ e ∈ (process_images decode images).1,
      e.filename = "image_" ++ toString e.index ++ ".jpg" ∧
      image_style_chunk e =
        "\n    <style:style style:name=\"" ++ ("fr" ++ toString e.index) ++
          "\" style:family=\"graphic\">\n      <style:graphic-properties style:horizontal-pos=\"center\" style:horizontal-rel=\"paragraph\"/>\n    </style:style>" ∧
      manifest_image_line e =
        "\n  <manifest:file-entry manifest:full-path=\"Pictures/" ++ e.filename ++
          "\" manifest:media-type=\"image/jpeg\"/>") ∧
    create_manifest (process_images decode images).1 =
      manifest_header ++
        String.join ((process_images decode images).1.map manifest_image_line) ++
        "\n</manifest:manifest>" ∧
    ((create_odt_full_zip decode c images now).drop 5).map ZipEntry.name =
      (process_images decode images).1.map (fun e => "Pictures/" ++ e.filename) := by
  simp only [process_images]
  have hgo := process_images_go_spec decode images 1
  refine ⟨hgo.1, ?_, ?_, rfl, ?_⟩
  · rw [hgo.1]
    exact List.nodup_range' _ _
  · intro e he
    refine ⟨hgo.2.1 e he, ?_, rfl⟩
    rw [image_style_chunk]
    rw [show "\n    <style:style style:name=\"fr" =
      "\n    <style:style style:name=\"" ++ "fr" from rfl]
    simp only [String.append_assoc]
  · have hnames : ∀ e ∈ (process_images_go decode 1 images).1,
        (lookup_file (process_images_go decode 1 images).2 e.filename).isSome := by
      intro e he
      apply lookup_isSome_of_mem_names
      rw [hgo.2.2]
      exact List.mem_map_of_mem ImageEntry.filename he
    have hdrop : (create_odt_full_zip decode c images now).drop 5 =
        (process_images_go decode 1 images).1.filterMap
          (fun e => (lookup_file (process_images_go decode 1 images).2 e.filename).map
            (fun b => (⟨"Pictures/" ++ e.filename, Compression.deflated,
              ZipData.bin b⟩ : ZipEntry))) := rfl
    rw [hdrop]
    exact picture_member_names _ _ hnames

/-- Witness for C6 at a concrete two-image mapping. -/
theorem image_index_invariants_witness :
    (process_images dec0 imagesTwo).1.map ImageEntry.index =
      List.range' 1 (process_images dec0 imagesTwo).1.length ∧
    (process_images dec0 imagesTwo).1.length = 2 ∧
    ((create_odt_full_zip dec0 cEmpty imagesTwo "t").drop 5).map ZipEntry.name =
      ["Pictures/image_1.jpg", "Pictures/image_2.jpg"] :=
  ⟨(image_index_invariants dec0 imagesTwo cEmpty "t").1, rfl,
   Trans.trans (image_index_invariants dec0 imagesTwo cEmpty "t").2.2.2.2 rfl⟩

/-- C7: for a decodable image the display width is the pixel width over 96
(inches) capped at 6, the height is scaled by the same factor (preserving
the aspect ratio before rounding), both formatted to two decimals; a
1920x1080 image yields `6.00in` x `3.38in`; decode failure falls back to
the fixed `4in` x `3in` placeholder.  Python float arithmetic is modelled
by exact rationals; every value in these claims is exactly representable
and the two-decimal rounding agrees with CPython. -/
theorem fmt2_six : fmt2 6 = "6.00" := by
  have hfl : ⌊(6 : ℚ) * 100⌋ = (600 : ℤ) := by
    rw [Int.floor_eq_iff]
    constructor
    · norm_num
    · norm_num
  simp only [fmt2, roundHalfEvenQ, hfl]
  rw [if_pos (by norm_num : (6 : ℚ) * 100 - ((600 : ℤ) : ℚ) < 1/2)]
  rfl

theorem fmt2_27_8 : fmt2 (27/8) = "3.38" := by
  have hfl : ⌊(27 : ℚ)/8 * 100⌋ = (337 : ℤ) := by
    rw [Int.floor_eq_iff]
    constructor
    · norm_num
    · norm_num
  simp only [fmt2, roundHalfEvenQ, hfl]
  rw [if_neg (by norm_num : ¬((27 : ℚ)/8 * 100 - ((337 : ℤ) : ℚ) < 1/2))]
  rw [if_neg (by norm_num : ¬((1 : ℚ)/2 < (27 : ℚ)/8 * 100 - ((337 : ℤ) : ℚ)))]
  rw [if_neg (by decide : ¬((337 : ℤ) % 2 = 0))]
  rfl

theorem compute_dims_1920 : compute_dims (some (1920, 1080)) = ("6.00in", "3.38in") := by
  simp only [compute_dims]
  have hc1 : (((1920, 1080) : Nat × Nat).1 : ℚ) / 96 = 20 := by norm_num
  have hc2 : (((1920, 1080) : Nat × Nat).2 : ℚ) / 96 = 45/4 := by norm_num
  rw [hc1, hc2]
  rw [if_pos (by norm_num : (6 : ℚ) < 20)]
  rw [show (45 : ℚ)/4 * (6/20) = 27/8 from by norm_num]
  rw [fmt2_six, fmt2_27_8]
  rfl

theorem image_dimension_rules :
    (∀ w h : Nat,
      (compute_dims (some (w, h))).1 = fmt2 (min ((w : ℚ) / 96) 6) ++ "in" ∧
      ∃ scale : ℚ, ((w : ℚ) / 96) * scale = min ((w : ℚ) / 96) 6 ∧
        (compute_dims (some (w, h))).2 = fmt2 (((h : ℚ) / 96) * scale) ++ "in") ∧
    compute_dims (some (1920, 1080)) = ("6.00in", "3.38in") ∧
    compute_dims none = ("4in", "3in") := by
  refine ⟨?_, compute_dims_1920, rfl⟩
  intro w h
  by_cases hw : 6 < (w : ℚ) / 96
  · have hmin : min ((w : ℚ) / 96) 6 = 6 := min_eq_right hw.le
    have hne : (w : ℚ) / 96 ≠ 0 := by
      have : (0 : ℚ) < (w : ℚ) / 96 := lt_trans (by norm_num) hw
      exact this.ne'
    refine ⟨?_, 6 / ((w : ℚ) / 96), ?_, ?_⟩
    · simp [compute_dims, hw, hmin]
    · rw [mul_comm, div_mul_cancel₀ 6 hne, hmin]
    · simp [compute_dims, hw]
  · have hmin : min ((w : ℚ) / 96) 6 = (w : ℚ) / 96 := min_eq_left (not_lt.mp hw)
    refine ⟨?_, 1, ?_, ?_⟩
    · simp [compute_dims, hw, hmin]
    · rw [mul_one, hmin]
    · simp [compute_dims, hw, mul_one]

/-- C8 counterexample: a template whose section layout references the
nonexistent field key `ghost` is nevertheless accepted by the registry's
load step and appears in the template list, refuting the claimed
`if and only if` with the spec's well-formedness (which requires every
section-referenced key to exist in the field map). -/
theorem template_validation_counterexample :
    validate_template tGhost = true ∧
    spec_well_formed_template tGhost = false ∧
    load_custom_templates [("ghosty", tGhost)] = [("custom-ghosty", tGhost)] := by
  refine ⟨rfl, rfl, rfl⟩

/-- C8 (amended): the load step accepts a custom template iff `name`,
`description` and `fields` are present, `fields` is a dict, and every
field definition is a dict carrying both `type` and `label`; section
references are not checked.  In particular a template missing a `label`
on any field is rejected and does not appear in the template list, and a
file's template appears in the list (keyed `custom-<stem>`) iff it
validates. -/
theorem template_validation_characterization (files : List (String × Json)) (stem : String)
    (t : Json) :
    (validate_template t = true ↔
      ((t.lookup "name").isSome ∧ (t.lookup "description").isSome ∧
        ∃ kvs, t.lookup "fields" = some (Json.obj kvs) ∧
          ∀ kv ∈ kvs, ∃ fkvs, kv.2 = Json.obj fkvs ∧
            assocHasKey fkvs "type" = true ∧ assocHasKey fkvs "label" = true)) ∧
    ((stem, t) ∈ files →
      (("custom-" ++ stem, t) ∈ load_custom_templates files ↔ validate_template t = true)) := by
  constructor
  · constructor
    · intro hv
      rw [validate_template] at hv
      by_cases hreq : (["name", "description", "fields"].all (fun k => (t.lookup k).isSome)) = true
      · rw [if_pos hreq] at hv
        simp only [List.all_cons, List.all_nil, Bool.and_true, Bool.and_eq_true,
          decide_eq_true_eq] at hreq
        refine ⟨hreq.1, hreq.2.1, ?_⟩
        rcases hf : t.lookup "fields" with _ | tf
        · rw [hf] at hv
          exact absurd hv (by simp)
        · rcases tf with _ | _ | _ | kvs
          · rw [hf] at hv; exact absurd hv (by simp)
          · rw [hf] at hv; exact absurd hv (by simp)
          · rw [hf] at hv; exact absurd hv (by simp)
          · refine ⟨kvs, rfl, ?_⟩
            rw [hf] at hv
            intro kv hkv
            have := (List.all_eq_true.mp hv) kv hkv
            rcases hkv2 : kv.2 with _ | _ | _ | fkvs
            · rw [hkv2] at this; exact absurd this (by simp)
            · rw [hkv2] at this; exact absurd this (by simp)
            · rw [hkv2] at this; exact absurd this (by simp)
            · rw [hkv2] at this
              simp only [Bool.and_eq_true] at this
              exact ⟨fkvs, rfl, this.1, this.2⟩
      · rw [if_neg hreq] at hv
        exact absurd hv (by simp)
    · rintro ⟨hn, hd, kvs, hf, hkvs⟩
      rw [validate_template, if_pos (by simp [hn, hd, Option.isSome_iff_exists.mpr ⟨_, hf⟩]),
        hf]
      rw [List.all_eq_true]
      intro kv hkv
      obtain ⟨fkvs, hkv2, ht, hl⟩ := hkvs kv hkv
      rw [hkv2]
      simp [ht, hl]
  · intro hmem
    constructor
    · intro hout
      obtain ⟨f, _, hf⟩ := List.mem_filterMap.mp hout
      by_cases hv : validate_template f.2 = true
      · rw [if_pos hv] at hf
        have ht : f.2 = t := congrArg Prod.snd (Option.some.inj hf)
        rw [← ht]
        exact hv
      · rw [if_neg hv] at hf
        exact absurd hf (by simp)
    · intro hv
      exact List.mem_filterMap.mpr ⟨(stem, t), hmem, by rw [if_pos hv]⟩

/-- Witness for C8 (amended): the ghost-section template validates, so it
appears in the loaded list under its derived key. -/
theorem template_validation_characterization_witness :
    ("custom-" ++ "ghosty", tGhost) ∈ load_custom_templates [("ghosty", tGhost)] :=
  ((template_validation_characterization [("ghosty", tGhost)] "ghosty" tGhost).2
    (List.mem_singleton.mpr rfl)).mpr rfl

/-- Saving then reloading one category's image list restores every staged
image's name and bytes exactly. -/
theorem saved_images_roundtrip : ∀ l : List (String × Option Bytes),
    (∀ q ∈ l, ∃ bs, q.2 = some bs ∧ bs ≠ [] ∧ ∀ x ∈ bs, x < 256) →
    ((l.filterMap (fun nd =>
        match nd.2 with
        | some bs => if bs.isEmpty then none
            else some (⟨nd.1, String.mk (b64EncodeBytes bs)⟩ : SavedImage)
        | none => none)).filterMap (fun si =>
          if si.data = "" then none else some (si.name, b64DecodeChars si.data.toList))) =
      l.map (fun nd => (nd.1, nd.2.getD []))
  | [], _ => rfl
  | q :: rest, h => by
      obtain ⟨bs, hq, hbs, hlt⟩ := h q (by simp)
      have hne : ¬(String.mk (b64EncodeBytes bs) = "") := by
        intro hcontra
        exact b64EncodeBytes_ne_nil bs hbs (by
          have := congrArg String.data hcontra
          simpa using this)
      have hrest := saved_images_roundtrip rest (fun x hx => h x (by simp [hx]))
      simp only [List.filterMap_cons, hq, List.map_cons, Option.getD_some]
      rw [if_neg (by simpa using hbs)]
      simp only [List.filterMap_cons]
      rw [if_neg hne]
      rw [show (String.mk (b64EncodeBytes bs)).toList = b64EncodeBytes bs from rfl,
        b64_roundtrip bs hlt, hrest]

/-- C9: saving a snapshot and reloading it restores the report data
field-for-field, every staged image's name and bytes exactly, and the
report number and format verbatim. -/
theorem snapshot_roundtrip (rd : ReportContent)
    (images : List (String × List (String × Option Bytes))) (tk : String)
    (rn : Option Nat) (rf : Option String) (odt : Option String)
    (h : ∀ ci ∈ images, ∀ q ∈ ci.2, ∃ bs, q.2 = some bs ∧ bs ≠ [] ∧ ∀ x ∈ bs, x < 256) :
    load_report_from_json (save_report_data_to_json rd images tk rn rf odt) =
      (rd, images.map (fun ci => (ci.1, ci.2.map (fun nd => (nd.1, nd.2.getD [])))), rn, rf) := by
  rw [load_report_from_json, save_report_data_to_json]
  simp only [List.map_map]
  refine congrArg (fun z => (rd, z, rn, rf)) ?_
  apply List.map_congr_left
  intro ci hci
  refine congrArg (fun z => (ci.1, z)) ?_
  exact saved_images_roundtrip ci.2 (h ci hci)

/-- Witness for C9 at a one-image snapshot. -/
theorem snapshot_roundtrip_witness :
    load_report_from_json (save_report_data_to_json cEmpty imagesSnap "advance-fee"
        (some 7) (some "{number}") none) =
      (cEmpty, [("passport_ids", [("a.jpg", [65, 255])])], some 7, some "{number}") := by
  have h := snapshot_roundtrip cEmpty imagesSnap "advance-fee" (some 7) (some "{number}") none
    (by
      intro ci hci q hq
      simp only [imagesSnap, List.mem_singleton] at hci
      subst hci
      simp only [List.mem_singleton] at hq
      subst hq
      exact ⟨[65, 255], rfl, by simp, by decide⟩)
  rw [h]
  rfl

/-- C10: the GUI export path calls `create_odt` with a `template_key`
keyword argument that the parameter list `(content, output_path, images)`
does not accept, so the call raises `TypeError` before any document is
assembled; the exception is caught and reported as a generic save
failure, and no archive is produced. -/
theorem export_report_type_error (decode : Bytes → Option (Nat × Nat)) (c : ReportContent)
    (images : List (String × List (String × Option Bytes))) (now : String) :
    bind_kwargs create_odt_param_names export_report_call_kwargs =
      Except.error "create_odt() got an unexpected keyword argument template_key" ∧
    export_report_run decode c images now =
      (none, "Failed to save report:\ncreate_odt() got an unexpected keyword argument template_key") :=
  ⟨rfl, rfl⟩

end ScamReport
